import Mathlib

/-!
Verification of the renopro-hipages-server automation core.

The repository contains two near-duplicate automation modules (the spec calls
them "the two near-duplicate automation modules in the source").  We embed
both: namespace `V1` models the module at the top of
src/src/hipages-automation.ts (lines 1-367) and namespace `V2` models the
second module (lines 368-742).

Modelling conventions:
* Browser-capability calls (`puppeteer.launch`, `page.goto`, `page.$`,
  `browser.close`, ...) are asynchronous and may reject (spec section 6: "All
  are asynchronous and may fail with a generic interaction error").  Each call
  site's outcome is supplied by an environment record as `Except String α`,
  the `String` being the rejection's error message.
* `browser.close()` tears the browser down (it is removed from the set of
  open browsers) even when the returned promise rejects; the environment
  decides separately whether the promise rejects.
* The module-level `activeSessions` map and the set of live browser processes
  form a `World`; `startJobPosting`/`submitOtp`/`cancelSession` are functions
  from a `World` (plus an environment) to a `World` together with their
  observable outputs.  The status-update callback is modelled by accumulating
  every delivered status in a trace; each trace entry also records the value
  `getJobStatus` would have returned at the moment of delivery.
* Fixed `delay(...)` pauses have no observable effect and are dropped.
-/

namespace HiPages

/-- Status enumeration from src/types (HiPagesJobStatus.status). -/
inductive St
  | pending
  | filling_form
  | uploading_photos
  | awaiting_otp
  | submitting
  | completed
  | failed
deriving DecidableEq, Repr

/-- Timing enumeration from src/types (HiPagesJobRequest.timing). -/
inductive Timing
  | asap
  | within_2_weeks
  | within_1_month
  | within_3_months
  | flexible
deriving DecidableEq, Repr

/-- Contact block of a job request. -/
structure Contact where
  name : String
  email : String
  phone : String
deriving DecidableEq, Repr

/-- Optional photo payloads (data-URI strings in the source). -/
structure Photos where
  original : Option String := none
  visualization : Option String := none
deriving DecidableEq, Repr

/-- HiPagesJobRequest from src/types. -/
structure HiPagesJobRequest where
  categorySlug : String
  categoryName : String
  postcode : String
  suburb : Option String := none
  description : String
  propertyType : String
  timing : Timing
  contact : Contact
  photos : Option Photos := none
deriving DecidableEq, Repr

/-- HiPagesJobStatus from src/types. -/
structure JobStatus where
  jobId : String
  status : St
  message : String
  hipagesJobId : Option String := none
  hipagesJobUrl : Option String := none
  error : Option String := none
deriving DecidableEq, Repr

/-- Build a status record with only the three always-present fields. -/
def mkStatus (jobId : String) (st : St) (msg : String) : JobStatus :=
  { jobId := jobId, status := st, message := msg }

/-- Decide whether the first string has the second as a prefix (an
executable embedding of `String.startsWith` over the character lists). -/
def isPrefixList : List Char → List Char → Bool
  | [], _ => true
  | _ :: _, [] => false
  | a :: as, b :: bs => a == b && isPrefixList as bs

/-- `s.startsWith(pre)`. -/
def strStartsWith (s pre : String) : Bool :=
  isPrefixList pre.data s.data

/-- JavaScript truthiness of an optional string (undefined and "" are falsy). -/
def optTruthy : Option String → Bool
  | none => false
  | some s => !s.data.isEmpty

/-- The `jobData.photos?.original || jobData.photos?.visualization` guard used
by both modules before entering the photo-upload stage. -/
def photosPresent (r : HiPagesJobRequest) : Bool :=
  optTruthy (r.photos.bind Photos.original) || optTruthy (r.photos.bind Photos.visualization)

/-- One entry of the `activeSessions` map: the owned browser handle (by id)
and the cached latest status.  (The first module also stores the job request;
it is never read back, so it is not carried in the model.) -/
structure SessionData where
  browserId : Nat
  status : JobStatus
deriving DecidableEq, Repr

/-- Process state: the `activeSessions` map plus the set of live browser
processes and a counter for allocating fresh browser ids. -/
structure World where
  sessions : List (String × SessionData)
  openBrowsers : List Nat
  nextBrowserId : Nat
deriving DecidableEq, Repr

/-- `activeSessions.get(k)`. -/
def lookupS (ss : List (String × SessionData)) (k : String) : Option SessionData :=
  (ss.find? (fun p => p.1 == k)).map (fun p => p.2)

/-- `activeSessions.delete(k)`. -/
def deleteS (ss : List (String × SessionData)) (k : String) : List (String × SessionData) :=
  ss.filter (fun p => p.1 != k)

/-- `activeSessions.set(k, v)`. -/
def setS (ss : List (String × SessionData)) (k : String) (v : SessionData) :
    List (String × SessionData) :=
  (k, v) :: deleteS ss k

/-- `browser.close()`: the browser process is torn down (regardless of whether
the close promise additionally rejects, which the environments model
separately). -/
def closeBrowser (w : World) (b : Nat) : World :=
  { w with openBrowsers := w.openBrowsers.filter (fun x => x != b) }

/-- `getJobStatus(jobId)` (identical in both modules): the cached status if a
session exists, else null. -/
def getJobStatus (w : World) (jobId : String) : Option JobStatus :=
  (lookupS w.sessions jobId).map (fun sd => sd.status)

/-- A delivered status update paired with the value `getJobStatus` returned at
the moment of delivery (observational instrumentation only). -/
abbrev Trace := List (JobStatus × Option JobStatus)

/-- Record one invocation of the status-update callback. -/
def emitTo (w : World) (jobId : String) (tr : Trace) (s : JobStatus) : Trace :=
  tr ++ [(s, getJobStatus w jobId)]

/-- The status enums of a trace, in delivery order. -/
def emittedStatuses (tr : Trace) : List St :=
  tr.map (fun p => p.1.status)

/-- How many delivered updates carried status `failed`. -/
def failedCount (tr : Trace) : Nat :=
  (emittedStatuses tr).count St.failed

/-! ### Stage-order monotonicity of delivered updates

The defined stage order of spec section 4.3 is
pending, filling_form, (uploading_photos), filling_form, awaiting_otp,
submitting, completed.  A delivered sequence is monotone when, after
collapsing consecutive repetitions and ignoring a final `failed`, it embeds as
a subsequence of that canonical chain. -/

/-- The canonical stage chain of spec section 4.3 (with the post-photos return
to filling_form spelled out). -/
def canonicalStages : List St :=
  [St.pending, St.filling_form, St.uploading_photos, St.filling_form,
   St.awaiting_otp, St.submitting, St.completed]

/-- Collapse consecutive equal elements. -/
def collapseRuns : List St → List St
  | [] => []
  | [a] => [a]
  | a :: b :: rest =>
    if a = b then collapseRuns (b :: rest) else a :: collapseRuns (b :: rest)

/-- Decidable subsequence test. -/
def subseqOf : List St → List St → Bool
  | [], _ => true
  | _ :: _, [] => false
  | a :: as, b :: bs => if a = b then subseqOf as bs else subseqOf (a :: as) bs

/-- Drop a final `failed` entry, if any. -/
def mainPart (t : List St) : List St :=
  if t.getLast? = some St.failed then t.dropLast else t

/-- A delivered status sequence is monotone with respect to the defined stage
order: apart from a final `failed`, no `failed` occurs, and the collapsed
sequence is a subsequence of the canonical chain. -/
def traceMonotone (t : List St) : Bool :=
  !(mainPart t).contains St.failed && subseqOf (collapseRuns (mainPart t)) canonicalStages

/-! ### Environments for `startJobPosting`

One field per awaited browser-capability call site; `setUserAgent` and
`waitForSelector` exist only in the second module and are ignored by the
first.  `closeInCatch` is the outcome of the `browser.close()` performed
inside the catch block (the first module swallows it via `.catch(() => {})`,
the second awaits it unguarded). -/

structure StartEnv where
  launch : Except String Unit
  newPage : Except String Unit
  setViewport : Except String Unit
  setUserAgent : Except String Unit
  goto : Except String Unit
  waitForSelector : Except String Unit
  fillCategory : Except String Unit
  fillLocation : Except String Unit
  clickGetQuotes : Except String Unit
  answerFormQuestions : Except String Unit
  fillDescription : Except String Unit
  uploadPhotos : Except String Unit
  fillContactDetails : Except String Unit
  closeInCatch : Except String Unit
deriving Repr

/-- Result of a `startJobPosting` run: final process state, the deliveries to
the status callback, and whether the returned promise resolved or rejected. -/
structure RunResult where
  world : World
  trace : Trace
  promise : Except String Unit
deriving Repr

/-! ## Module 1 (src/src/hipages-automation.ts lines 1-367) -/

/-- Module 1 catch block (lines 144-158): close the browser if launched with
the rejection swallowed, delete the session, then report `failed` once
through the callback; the promise resolves. -/
def V1.catchRecover (jobId e : String) (browser : Option Nat) (w : World) (tr : Trace) :
    RunResult :=
  let w1 := match browser with
    | some b => closeBrowser w b
    | none => w
  let w2 := { w1 with sessions := deleteS w1.sessions jobId }
  let failSt : JobStatus :=
    { jobId := jobId, status := St.failed, message := "Job posting failed", error := some e }
  ⟨w2, emitTo w2 jobId tr failSt, Except.ok ()⟩

/-- Module 1 tail after the optional photo stage: contact details, the
awaiting_otp update, and the in-place cache mutation of lines 135-142. -/
def V1.finishStages (env : StartEnv) (jobId : String) (b : Nat) (w : World) (tr : Trace) :
    RunResult :=
  let tr := emitTo w jobId tr (mkStatus jobId St.filling_form "Entering contact details...")
  match env.fillContactDetails with
  | .error e => V1.catchRecover jobId e (some b) w tr
  | .ok _ =>
    let tr := emitTo w jobId tr
      (mkStatus jobId St.awaiting_otp "Please enter the verification code sent to your phone")
    let w := match lookupS w.sessions jobId with
      | some sd =>
        let sd2 := { sd with
          status := mkStatus jobId St.awaiting_otp "Waiting for OTP verification" }
        { w with sessions := setS w.sessions jobId sd2 }
      | none => w
    ⟨w, tr, Except.ok ()⟩

/-- Module 1 `startJobPosting` (lines 20-159). -/
def V1.startJobPosting (env : StartEnv) (jobId : String) (jobData : HiPagesJobRequest)
    (w : World) : RunResult :=
  let tr := emitTo w jobId [] (mkStatus jobId St.pending "Launching browser...")
  match env.launch with
  | .error e => V1.catchRecover jobId e none w tr
  | .ok _ =>
    let b := w.nextBrowserId
    let w := { w with openBrowsers := b :: w.openBrowsers, nextBrowserId := b + 1 }
    match env.newPage with
    | .error e => V1.catchRecover jobId e (some b) w tr
    | .ok _ =>
    match env.setViewport with
    | .error e => V1.catchRecover jobId e (some b) w tr
    | .ok _ =>
    let sd0 : SessionData := ⟨b, mkStatus jobId St.filling_form "Starting..."⟩
    let w := { w with sessions := setS w.sessions jobId sd0 }
    let tr := emitTo w jobId tr (mkStatus jobId St.filling_form "Navigating to HiPages...")
    match env.goto with
    | .error e => V1.catchRecover jobId e (some b) w tr
    | .ok _ =>
    let tr := emitTo w jobId tr (mkStatus jobId St.filling_form "Selecting category...")
    match env.fillCategory with
    | .error e => V1.catchRecover jobId e (some b) w tr
    | .ok _ =>
    let tr := emitTo w jobId tr (mkStatus jobId St.filling_form "Entering location...")
    match env.fillLocation with
    | .error e => V1.catchRecover jobId e (some b) w tr
    | .ok _ =>
    let tr := emitTo w jobId tr (mkStatus jobId St.filling_form "Getting quotes form...")
    match env.clickGetQuotes with
    | .error e => V1.catchRecover jobId e (some b) w tr
    | .ok _ =>
    let tr := emitTo w jobId tr (mkStatus jobId St.filling_form "Answering questions...")
    match env.answerFormQuestions with
    | .error e => V1.catchRecover jobId e (some b) w tr
    | .ok _ =>
    let tr := emitTo w jobId tr (mkStatus jobId St.filling_form "Adding job description...")
    match env.fillDescription with
    | .error e => V1.catchRecover jobId e (some b) w tr
    | .ok _ =>
    if photosPresent jobData then
      let tr := emitTo w jobId tr (mkStatus jobId St.uploading_photos "Uploading photos...")
      match env.uploadPhotos with
      | .error e => V1.catchRecover jobId e (some b) w tr
      | .ok _ => V1.finishStages env jobId b w tr
    else V1.finishStages env jobId b w tr

/-- The error the straight-line body of module 1 `startJobPosting` runs into,
if any, mirroring the order of the awaited calls. -/
def V1.firstError (env : StartEnv) (jobData : HiPagesJobRequest) : Option String :=
  match env.launch with
  | .error e => some e
  | .ok _ =>
  match env.newPage with
  | .error e => some e
  | .ok _ =>
  match env.setViewport with
  | .error e => some e
  | .ok _ =>
  match env.goto with
  | .error e => some e
  | .ok _ =>
  match env.fillCategory with
  | .error e => some e
  | .ok _ =>
  match env.fillLocation with
  | .error e => some e
  | .ok _ =>
  match env.clickGetQuotes with
  | .error e => some e
  | .ok _ =>
  match env.answerFormQuestions with
  | .error e => some e
  | .ok _ =>
  match env.fillDescription with
  | .error e => some e
  | .ok _ =>
  match (if photosPresent jobData then env.uploadPhotos else Except.ok ()) with
  | .error e => some e
  | .ok _ =>
  match env.fillContactDetails with
  | .error e => some e
  | .ok _ => none

/-! ## Module 2 (src/src/hipages-automation.ts lines 368-742) -/

/-- Module 2 local `updateStatus` (lines 418-429): merge the given fields into
the current cached status (or a default when no session exists yet), write the
merge back into the session if one exists, then deliver it to the callback. -/
def V2.updateStatus (jobId : String) (st : Option St) (msg : String) (w : World) (tr : Trace) :
    World × Trace :=
  let currentStatus := match getJobStatus w jobId with
    | some s => s
    | none => mkStatus jobId St.pending "Starting..."
  let newStatus := { currentStatus with status := st.getD currentStatus.status, message := msg }
  let w2 := match lookupS w.sessions jobId with
    | some sd => { w with sessions := setS w.sessions jobId { sd with status := newStatus } }
    | none => w
  (w2, emitTo w2 jobId tr newStatus)

/-- The status record module 2's `updateStatus` produces when merging into an
existing cached status. -/
def V2.mergedStatus (sd : SessionData) (st : Option St) (msg : String) : JobStatus :=
  { sd.status with status := st.getD sd.status.status, message := msg }

/-- Module 2 catch block (lines 493-507): `await browser.close()` is NOT
guarded, so a close rejection propagates out of the catch block — the session
is then not deleted and no `failed` update is delivered. -/
def V2.catchRecover (env : StartEnv) (jobId e : String) (browser : Option Nat) (w : World)
    (tr : Trace) : RunResult :=
  let failSt : JobStatus :=
    { jobId := jobId, status := St.failed, message := "Failed to post job", error := some e }
  match browser with
  | some b =>
    let w1 := closeBrowser w b
    match env.closeInCatch with
    | .error c => ⟨w1, tr, Except.error c⟩
    | .ok _ =>
      let w2 := { w1 with sessions := deleteS w1.sessions jobId }
      ⟨w2, emitTo w2 jobId tr failSt, Except.ok ()⟩
  | none =>
    let w2 := { w with sessions := deleteS w.sessions jobId }
    ⟨w2, emitTo w2 jobId tr failSt, Except.ok ()⟩

/-- Module 2 tail after the optional photo stage: contact details and the
awaiting_otp update (whose message embeds the contact phone). -/
def V2.finishStages (env : StartEnv) (jobId : String) (jobData : HiPagesJobRequest) (b : Nat)
    (w : World) (tr : Trace) : RunResult :=
  let s := V2.updateStatus jobId none "Filling contact details..." w tr
  match env.fillContactDetails with
  | .error e => V2.catchRecover env jobId e (some b) s.1 s.2
  | .ok _ =>
    let s2 := V2.updateStatus jobId (some St.awaiting_otp)
      ("Enter the code sent to " ++ jobData.contact.phone) s.1 s.2
    ⟨s2.1, s2.2, Except.ok ()⟩

/-- Module 2 `startJobPosting` (lines 410-508). -/
def V2.startJobPosting (env : StartEnv) (jobId : String) (jobData : HiPagesJobRequest)
    (w0 : World) : RunResult :=
  let s0 := V2.updateStatus jobId (some St.pending) "Launching browser..." w0 []
  match env.launch with
  | .error e => V2.catchRecover env jobId e none s0.1 s0.2
  | .ok _ =>
    let b := s0.1.nextBrowserId
    let w1 := { s0.1 with openBrowsers := b :: s0.1.openBrowsers, nextBrowserId := b + 1 }
    match env.newPage with
    | .error e => V2.catchRecover env jobId e (some b) w1 s0.2
    | .ok _ =>
    match env.setViewport with
    | .error e => V2.catchRecover env jobId e (some b) w1 s0.2
    | .ok _ =>
    match env.setUserAgent with
    | .error e => V2.catchRecover env jobId e (some b) w1 s0.2
    | .ok _ =>
    let sd0 : SessionData := ⟨b, mkStatus jobId St.pending "Browser launched"⟩
    let w2 := { w1 with sessions := setS w1.sessions jobId sd0 }
    let s1 := V2.updateStatus jobId (some St.filling_form) "Navigating to HiPages..." w2 s0.2
    match env.goto with
    | .error e => V2.catchRecover env jobId e (some b) s1.1 s1.2
    | .ok _ =>
    match env.waitForSelector with
    | .error e => V2.catchRecover env jobId e (some b) s1.1 s1.2
    | .ok _ =>
    let s2 := V2.updateStatus jobId none "Filling category..." s1.1 s1.2
    match env.fillCategory with
    | .error e => V2.catchRecover env jobId e (some b) s2.1 s2.2
    | .ok _ =>
    let s3 := V2.updateStatus jobId none "Filling location..." s2.1 s2.2
    match env.fillLocation with
    | .error e => V2.catchRecover env jobId e (some b) s3.1 s3.2
    | .ok _ =>
    match env.clickGetQuotes with
    | .error e => V2.catchRecover env jobId e (some b) s3.1 s3.2
    | .ok _ =>
    let s4 := V2.updateStatus jobId none "Answering questions..." s3.1 s3.2
    match env.answerFormQuestions with
    | .error e => V2.catchRecover env jobId e (some b) s4.1 s4.2
    | .ok _ =>
    let s5 := V2.updateStatus jobId none "Filling job description..." s4.1 s4.2
    match env.fillDescription with
    | .error e => V2.catchRecover env jobId e (some b) s5.1 s5.2
    | .ok _ =>
    if photosPresent jobData then
      let s6 := V2.updateStatus jobId (some St.uploading_photos) "Uploading photos..." s5.1 s5.2
      match env.uploadPhotos with
      | .error e => V2.catchRecover env jobId e (some b) s6.1 s6.2
      | .ok _ => V2.finishStages env jobId jobData b s6.1 s6.2
    else V2.finishStages env jobId jobData b s5.1 s5.2

/-- The error the straight-line body of module 2 `startJobPosting` runs into,
if any, mirroring the order of the awaited calls. -/
def V2.firstError (env : StartEnv) (jobData : HiPagesJobRequest) : Option String :=
  match env.launch with
  | .error e => some e
  | .ok _ =>
  match env.newPage with
  | .error e => some e
  | .ok _ =>
  match env.setViewport with
  | .error e => some e
  | .ok _ =>
  match env.setUserAgent with
  | .error e => some e
  | .ok _ =>
  match env.goto with
  | .error e => some e
  | .ok _ =>
  match env.waitForSelector with
  | .error e => some e
  | .ok _ =>
  match env.fillCategory with
  | .error e => some e
  | .ok _ =>
  match env.fillLocation with
  | .error e => some e
  | .ok _ =>
  match env.clickGetQuotes with
  | .error e => some e
  | .ok _ =>
  match env.answerFormQuestions with
  | .error e => some e
  | .ok _ =>
  match env.fillDescription with
  | .error e => some e
  | .ok _ =>
  match (if photosPresent jobData then env.uploadPhotos else Except.ok ()) with
  | .error e => some e
  | .ok _ =>
  match env.fillContactDetails with
  | .error e => some e
  | .ok _ => none

/-- The status records delivered to the callback, in order (snapshots
dropped). -/
def emittedRecords (tr : Trace) : List JobStatus :=
  tr.map (fun p => p.1)

/-- Module 1 terminal failure record of `startJobPosting` (lines 152-157). -/
def V1.failRecord (jobId e : String) : JobStatus :=
  { jobId := jobId, status := St.failed, message := "Job posting failed", error := some e }

/-- Module 2 terminal failure record of `startJobPosting` (lines 501-506). -/
def V2.failRecord (jobId e : String) : JobStatus :=
  { jobId := jobId, status := St.failed, message := "Failed to post job", error := some e }

/-! ### External job-identifier extraction

Executable embeddings of the JavaScript regular expressions used by
`submitOtp`:
module 1 matches the URL against /job[_-]?id[=\x2f](\d+)/i and, failing that,
the page content against /job[_-]?id["\s:]+(\d+)/i; module 2 matches the URL
against /job\x2f(\d+)/.  Scanning is leftmost-first, the digit capture is
greedy, as in the JavaScript engine. -/

/-- Case-insensitive comparison of a subject character against a lower-case
pattern character. -/
def lowEq (a : Char) (b : Char) : Bool :=
  a.toLower == b

/-- Greedy `(\d+)` capture: the leading digit run. -/
def takeDigits (l : List Char) : List Char :=
  l.takeWhile Char.isDigit

/-- Match `id[=\x2f](\d+)` (case-insensitively) at the head of the input. -/
def matchIdEq : List Char → Option (List Char)
  | i :: d :: sep :: rest =>
    if lowEq i 'i' && lowEq d 'd' && (sep == '=' || sep == '/') then
      let ds := takeDigits rest
      if ds.isEmpty then none else some ds
    else none
  | _ => none

/-- Match module 1's URL pattern at the head of the input. -/
def matchUrlAt : List Char → Option (List Char)
  | j :: o :: b :: rest =>
    if lowEq j 'j' && lowEq o 'o' && lowEq b 'b' then
      match rest with
      | c :: rest2 => if c == '_' || c == '-' then matchIdEq rest2 else matchIdEq rest
      | [] => none
    else none
  | _ => none

/-- Leftmost match of module 1's URL pattern. -/
def scanUrlV1 : List Char → Option (List Char)
  | [] => none
  | c :: rest =>
    match matchUrlAt (c :: rest) with
    | some ds => some ds
    | none => scanUrlV1 rest

/-- The character class `["\s:]` of module 1's content pattern. -/
def sepClass (c : Char) : Bool :=
  c == '"' || c == ':' || c.isWhitespace

/-- Match `id["\s:]+(\d+)` (case-insensitively) at the head of the input. -/
def matchIdSep : List Char → Option (List Char)
  | i :: d :: rest =>
    if lowEq i 'i' && lowEq d 'd' then
      let seps := rest.takeWhile sepClass
      if seps.isEmpty then none
      else
        let ds := takeDigits (rest.dropWhile sepClass)
        if ds.isEmpty then none else some ds
    else none
  | _ => none

/-- Match module 1's content pattern at the head of the input. -/
def matchContentAt : List Char → Option (List Char)
  | j :: o :: b :: rest =>
    if lowEq j 'j' && lowEq o 'o' && lowEq b 'b' then
      match rest with
      | c :: rest2 => if c == '_' || c == '-' then matchIdSep rest2 else matchIdSep rest
      | [] => none
    else none
  | _ => none

/-- Leftmost match of module 1's content pattern. -/
def scanContentV1 : List Char → Option (List Char)
  | [] => none
  | c :: rest =>
    match matchContentAt (c :: rest) with
    | some ds => some ds
    | none => scanContentV1 rest

/-- Match module 2's URL pattern (case-sensitive `job/` then digits) at the
head of the input. -/
def matchV2At : List Char → Option (List Char)
  | 'j' :: 'o' :: 'b' :: '/' :: rest =>
    let ds := takeDigits rest
    if ds.isEmpty then none else some ds
  | _ => none

/-- Leftmost match of module 2's URL pattern. -/
def scanUrlV2 : List Char → Option (List Char)
  | [] => none
  | c :: rest =>
    match matchV2At (c :: rest) with
    | some ds => some ds
    | none => scanUrlV2 rest

/-- Module 1 extraction (lines 194-198): URL first, then page content. -/
def V1.extractJobId (url content : String) : Option String :=
  match scanUrlV1 url.toList with
  | some ds => some (String.mk ds)
  | none => (scanContentV1 content.toList).map String.mk

/-- Module 2 extraction (lines 540-542): URL only. -/
def V2.extractJobId (url : String) : Option String :=
  (scanUrlV2 url.toList).map String.mk

/-! ### `submitOtp` -/

/-- Environment for one `submitOtp` call: one field per awaited call site.
`findOtpInput`/`findVerifyButton` return whether `page.$` found the element
(or the error it threw); `content` is the outcome of `page.content()`; `url`
is the (synchronous) `page.url()`; `closeMain` is the success-path
`browser.close()` and `closeInCatch` the one inside the catch block.
`clickOtpInput` and `findAndClick` are used only by module 2, `findVerifyButton`,
`clickVerify` and `content` only by module 1. -/
structure SubmitEnv where
  findOtpInput : Except String Bool
  clickOtpInput : Except String Unit
  typeOtp : Except String Unit
  findVerifyButton : Except String Bool
  clickVerify : Except String Unit
  findAndClick : Except String Bool
  content : Except String String
  url : String
  closeMain : Except String Unit
  closeInCatch : Except String Unit
deriving Repr

/-- The `failed` status returned by module 1 `submitOtp` when no session
exists (lines 164-171). -/
def V1.noSessionStatus (jobId : String) : JobStatus :=
  { jobId := jobId, status := St.failed, message := "Session not found",
    error := some "No active session for this job" }

/-- The `failed` status returned by module 2 `submitOtp` when no session
exists (lines 516-523). -/
def V2.noSessionStatus (jobId : String) : JobStatus :=
  { jobId := jobId, status := St.failed, message := "Session not found",
    error := some "No active session for this job ID" }

/-- Module 1 `submitOtp` (lines 161-226).  The catch block closes the browser
with the rejection swallowed, deletes the session and returns `failed`; the
promise never rejects. -/
def V1.submitOtp (env : SubmitEnv) (jobId : String) (w : World) :
    World × Except String JobStatus :=
  match lookupS w.sessions jobId with
  | none => (w, Except.ok (V1.noSessionStatus jobId))
  | some sd =>
    let catchH := fun (e : String) =>
      let w1 := closeBrowser w sd.browserId
      let w2 := { w1 with sessions := deleteS w1.sessions jobId }
      (w2, Except.ok { jobId := jobId, status := St.failed,
                       message := "Failed to verify OTP", error := some e })
    match env.findOtpInput with
    | .error e => catchH e
    | .ok found =>
    match (if found then env.typeOtp else Except.ok ()) with
    | .error e => catchH e
    | .ok _ =>
    match env.findVerifyButton with
    | .error e => catchH e
    | .ok foundV =>
    match (if foundV then env.clickVerify else Except.ok ()) with
    | .error e => catchH e
    | .ok _ =>
    match env.content with
    | .error e => catchH e
    | .ok pageContent =>
      let hid := V1.extractJobId env.url pageContent
      match env.closeMain with
      | .error e => catchH e
      | .ok _ =>
        let w1 := closeBrowser w sd.browserId
        let w2 := { w1 with sessions := deleteS w1.sessions jobId }
        (w2, Except.ok { jobId := jobId, status := St.completed,
                         message := "Job posted successfully!",
                         hipagesJobId := hid,
                         hipagesJobUrl := hid.map (fun i => "https://hipages.com.au/jobs/" ++ i) })

/-- Module 2 `submitOtp` (lines 513-570).  The cached status is first mutated
to `submitting`; the catch block awaits `browser.close()` unguarded, so a
close rejection propagates (session left in place, promise rejects). -/
def V2.submitOtp (env : SubmitEnv) (jobId : String) (w0 : World) :
    World × Except String JobStatus :=
  match lookupS w0.sessions jobId with
  | none => (w0, Except.ok (V2.noSessionStatus jobId))
  | some sd =>
    let sd1 := { sd with status :=
      { sd.status with status := St.submitting, message := "Verifying code..." } }
    let w := { w0 with sessions := setS w0.sessions jobId sd1 }
    let catchH := fun (e : String) =>
      let w1 := closeBrowser w sd.browserId
      match env.closeInCatch with
      | .error c => (w1, Except.error c)
      | .ok _ =>
        let w2 := { w1 with sessions := deleteS w1.sessions jobId }
        (w2, Except.ok { jobId := jobId, status := St.failed,
                         message := "Failed to verify code", error := some e })
    match env.findOtpInput with
    | .error e => catchH e
    | .ok found =>
    match (if found then env.clickOtpInput else Except.ok ()) with
    | .error e => catchH e
    | .ok _ =>
    match (if found then env.typeOtp else Except.ok ()) with
    | .error e => catchH e
    | .ok _ =>
    match env.findAndClick with
    | .error e => catchH e
    | .ok _ =>
      let hid := V2.extractJobId env.url
      match env.closeMain with
      | .error e => catchH e
      | .ok _ =>
        let w1 := closeBrowser w sd.browserId
        let w2 := { w1 with sessions := deleteS w1.sessions jobId }
        (w2, Except.ok { jobId := jobId, status := St.completed,
                         message := "Job posted successfully!",
                         hipagesJobId := hid,
                         hipagesJobUrl := hid.map (fun i =>
                           "https://www.hipages.com.au/account/job/" ++ i ++
                             "/interested-businesses") })

/-! ### `cancelSession` -/

/-- Environment for one `cancelSession` call: the outcome of the single
`browser.close()` call site. -/
structure CancelEnv where
  closeOutcome : Except String Unit
deriving Repr

/-- Module 1 `cancelSession` (lines 228-234): close errors are swallowed via
`.catch(() => {})`; never rejects. -/
def V1.cancelSession (jobId : String) (w : World) : World × Except String Unit :=
  match lookupS w.sessions jobId with
  | none => (w, Except.ok ())
  | some sd =>
    let w1 := closeBrowser w sd.browserId
    ({ w1 with sessions := deleteS w1.sessions jobId }, Except.ok ())

/-- Module 2 `cancelSession` (lines 575-581): `await session.browser.close()`
is unguarded, so a close rejection propagates before the delete. -/
def V2.cancelSession (env : CancelEnv) (jobId : String) (w : World) :
    World × Except String Unit :=
  match lookupS w.sessions jobId with
  | none => (w, Except.ok ())
  | some sd =>
    let w1 := closeBrowser w sd.browserId
    match env.closeOutcome with
    | .error c => (w1, Except.error c)
    | .ok _ => ({ w1 with sessions := deleteS w1.sessions jobId }, Except.ok ())

/-! ### `uploadPhotos` -/

/-- The filesystem as the set of existing paths; file contents are not
observed by any claim. -/
structure FileSys where
  files : List String
deriving DecidableEq, Repr

/-- `fs.writeFileSync(p, data)`: the path exists afterwards. -/
def writeFile (fs : FileSys) (p : String) : FileSys :=
  { files := if fs.files.contains p then fs.files else p :: fs.files }

/-- `fs.unlinkSync(p)` with the surrounding `try {} catch {}`: the path does
not exist afterwards (an ENOENT throw is swallowed). -/
def unlinkFile (fs : FileSys) (p : String) : FileSys :=
  { files := fs.files.filter (fun q => q != p) }

/-- The `finally` block of `uploadPhotos`: best-effort unlink of every
recorded temp file. -/
def finallyClean (fs : FileSys) (temps : List String) : FileSys :=
  temps.foldl unlinkFile fs

/-- Environment for one `uploadPhotos` call: whether `page.$` finds a file
input (or throws), the outcomes of the two `writeFileSync` calls and of
`uploadFile`, and the two `Date.now()`-derived temp paths. -/
structure UploadEnv where
  findFileInput : Except String Bool
  writeOriginal : Except String Unit
  writeViz : Except String Unit
  uploadOutcome : Except String Unit
  origName : String
  vizName : String
deriving Repr

/-- Result of one `uploadPhotos` call: final filesystem, the temp files the
stage created, and whether the stage returned or threw. -/
structure UploadResult where
  fs : FileSys
  tempFiles : List String
  outcome : Except String Unit
deriving Repr

/-- Module 1 `uploadPhotos` (lines 305-338): payloads are decoded only when
they start with "data:"; the `finally` block unlinks every recorded temp
file whether the body returned or threw. -/
def V1.uploadPhotos (env : UploadEnv) (photos : Photos) (fs0 : FileSys) : UploadResult :=
  match env.findFileInput with
  | .error e => ⟨fs0, [], Except.error e⟩
  | .ok false => ⟨fs0, [], Except.ok ()⟩
  | .ok true =>
    let doOrig := optTruthy photos.original && strStartsWith (photos.original.getD "") "data:"
    let doViz := optTruthy photos.visualization && strStartsWith (photos.visualization.getD "") "data:"
    let step1 : FileSys × List String × Option String :=
      if doOrig then
        match env.writeOriginal with
        | .error e => (fs0, [], some e)
        | .ok _ => (writeFile fs0 env.origName, [env.origName], none)
      else (fs0, [], none)
    match step1.2.2 with
    | some e => ⟨finallyClean step1.1 step1.2.1, step1.2.1, Except.error e⟩
    | none =>
      let step2 : FileSys × List String × Option String :=
        if doViz then
          match env.writeViz with
          | .error e => (step1.1, step1.2.1, some e)
          | .ok _ => (writeFile step1.1 env.vizName, step1.2.1 ++ [env.vizName], none)
        else (step1.1, step1.2.1, none)
      match step2.2.2 with
      | some e => ⟨finallyClean step2.1 step2.2.1, step2.2.1, Except.error e⟩
      | none =>
        if step2.2.1.length > 0 then
          match env.uploadOutcome with
          | .error e => ⟨finallyClean step2.1 step2.2.1, step2.2.1, Except.error e⟩
          | .ok _ => ⟨finallyClean step2.1 step2.2.1, step2.2.1, Except.ok ()⟩
        else ⟨finallyClean step2.1 step2.2.1, step2.2.1, Except.ok ()⟩

/-- Module 2 `uploadPhotos` (lines 671-714): same scoped-cleanup structure;
payloads are decoded whenever truthy (no "data:" check). -/
def V2.uploadPhotos (env : UploadEnv) (photos : Photos) (fs0 : FileSys) : UploadResult :=
  match env.findFileInput with
  | .error e => ⟨fs0, [], Except.error e⟩
  | .ok false => ⟨fs0, [], Except.ok ()⟩
  | .ok true =>
    let doOrig := optTruthy photos.original
    let doViz := optTruthy photos.visualization
    let step1 : FileSys × List String × Option String :=
      if doOrig then
        match env.writeOriginal with
        | .error e => (fs0, [], some e)
        | .ok _ => (writeFile fs0 env.origName, [env.origName], none)
      else (fs0, [], none)
    match step1.2.2 with
    | some e => ⟨finallyClean step1.1 step1.2.1, step1.2.1, Except.error e⟩
    | none =>
      let step2 : FileSys × List String × Option String :=
        if doViz then
          match env.writeViz with
          | .error e => (step1.1, step1.2.1, some e)
          | .ok _ => (writeFile step1.1 env.vizName, step1.2.1 ++ [env.vizName], none)
        else (step1.1, step1.2.1, none)
      match step2.2.2 with
      | some e => ⟨finallyClean step2.1 step2.2.1, step2.2.1, Except.error e⟩
      | none =>
        if step2.2.1.length > 0 then
          match env.uploadOutcome with
          | .error e => ⟨finallyClean step2.1 step2.2.1, step2.2.1, Except.error e⟩
          | .ok _ => ⟨finallyClean step2.1 step2.2.1, step2.2.1, Except.ok ()⟩
        else ⟨finallyClean step2.1 step2.2.1, step2.2.1, Except.ok ()⟩

/-! ### `answerFormQuestions` -/

/-- One snapshot of the dynamic question page as module 2's loop observes it:
whether a `textarea` is present, how many unchecked radio controls the
`input[type="radio"]:not(:checked)` query returns, and whether a
next/continue control is found (clicking it navigates to the next screen). -/
structure Screen where
  hasTextarea : Bool
  unselected : Nat
  hasNext : Bool
deriving DecidableEq, Repr

/-- Observable outcome of module 2's question loop. -/
structure AnswerResult where
  radioClicks : Nat
  iterations : Nat
  stoppedOnTextarea : Bool
  stoppedOnNoNext : Bool
deriving DecidableEq, Repr

/-- Module 2 question loop (lines 642-659), fuelled by the remaining
iteration budget; `screens k` is the page after `k` next-clicks. -/
def V2.answerLoop (screens : Nat → Screen) : Nat → Nat → AnswerResult
  | 0, _ => ⟨0, 0, false, false⟩
  | fuel + 1, k =>
    let s := screens k
    if s.hasTextarea then ⟨0, 0, true, false⟩
    else
      let c := if 0 < s.unselected then 1 else 0
      if s.hasNext then
        let r := V2.answerLoop screens fuel (k + 1)
        ⟨c + r.radioClicks, 1 + r.iterations, r.stoppedOnTextarea, r.stoppedOnNoNext⟩
      else ⟨c, 1, false, true⟩

/-- Module 2 `answerFormQuestions` (lines 639-660): the loop bound is 10. -/
def V2.answerFormQuestions (screens : Nat → Screen) : AnswerResult :=
  V2.answerLoop screens 10 0

/-- The question page as module 1 observes it: the radio controls returned by
`page.$$`, the continue/next buttons, and (unconsulted) whether a textarea is
present. -/
structure QPage where
  radios : Nat
  nextButtons : Nat
  hasTextarea : Bool
deriving DecidableEq, Repr

/-- Module 1 `answerFormQuestions` (lines 277-295): click the first five radio
controls (selected or not), then click every continue/next button; the
presence of a textarea is never consulted.  Returns (radio clicks, advance
clicks). -/
def V1.answerFormQuestions (p : QPage) : Nat × Nat :=
  (min p.radios 5, p.nextButtons)

/-! ### Concrete inputs for witnesses and counterexamples -/

/-- A resolved unit promise. -/
def okU : Except String Unit := Except.ok ()

/-- Start environment in which every awaited call succeeds. -/
def startAllOk : StartEnv :=
  ⟨okU, okU, okU, okU, okU, okU, okU, okU, okU, okU, okU, okU, okU, okU⟩

/-- Sample request with one photo payload. -/
def reqPhotos : HiPagesJobRequest :=
  { categorySlug := "plumbing", categoryName := "Plumbing", postcode := "2000",
    description := "Leaking tap", propertyType := "house", timing := Timing.asap,
    contact := ⟨"Jane Doe", "jane@example.com", "0400000000"⟩,
    photos := some { original := some "data:image/jpeg;base64,AAA" } }

/-- Sample request without photos. -/
def reqNoPhotos : HiPagesJobRequest :=
  { reqPhotos with photos := none }

/-- The empty process state. -/
def emptyWorld : World := ⟨[], [], 0⟩

/-- A process state holding one live session for "job-1" (browser id 0). -/
def oneSessionWorld : World :=
  ⟨[("job-1", ⟨0, mkStatus "job-1" St.awaiting_otp "Waiting for OTP verification"⟩)], [0], 1⟩

/-- Submit environment in which every awaited call succeeds, the OTP input and
verify button are found, and the resulting URL carries a job identifier in
module 1's URL shape. -/
def submitAllOk : SubmitEnv :=
  ⟨Except.ok true, okU, okU, Except.ok true, okU, Except.ok true,
   Except.ok "", "https://hipages.com.au/confirm?job_id=12345", okU, okU⟩

/-- Submit environment in which the OTP-input query throws and both
`browser.close()` calls reject. -/
def submitCloseFails : SubmitEnv :=
  ⟨Except.error "Element detached", okU, okU, Except.ok true, okU, Except.ok true,
   Except.ok "", "https://hipages.com.au/confirm", okU, Except.error "close failed"⟩

/-- Start environment in which the initial navigation times out. -/
def startGotoFails : StartEnv :=
  { startAllOk with goto := Except.error "Navigation timeout of 30000 ms exceeded" }

/-- Start environment in which the initial navigation times out and the
recovery `browser.close()` also rejects. -/
def startGotoCloseFails : StartEnv :=
  { startGotoFails with closeInCatch := Except.error "close failed" }

/-- Upload environment with a file input present, both decodes succeeding and
the upload step throwing. -/
def uploadFailEnv : UploadEnv :=
  ⟨Except.ok true, okU, okU, Except.error "upload failed",
   "/tmp/hipages_original_1.jpg", "/tmp/hipages_viz_1.jpg"⟩

/-- Photo block with both payloads present as data URIs. -/
def photosBoth : Photos :=
  { original := some "data:image/jpeg;base64,AAA",
    visualization := some "data:image/jpeg;base64,BBB" }

/-- A filesystem holding one unrelated file. -/
def fsPre : FileSys := ⟨["/home/user/keep.txt"]⟩

/-- A question-page script whose first screen already shows a textarea. -/
def screensTextarea : Nat → Screen := fun _ => ⟨true, 3, true⟩

/-- A question-page script with three radio screens, then a textarea. -/
def screensThree : Nat → Screen := fun k =>
  if k < 3 then ⟨false, 2, true⟩ else ⟨true, 0, false⟩

/-! # Theorems -/

theorem lookupS_deleteS (ss : List (String × SessionData)) (k : String) :
    lookupS (deleteS ss k) k = none := by
  have h : (deleteS ss k).find? (fun p => p.1 == k) = none := by
    rw [List.find?_eq_none]
    intro x hx
    have hpx := List.of_mem_filter hx
    simpa using hpx
  simp [lookupS, h]

theorem lookupS_setS_self (ss : List (String × SessionData)) (k : String) (v : SessionData) :
    lookupS (setS ss k v) k = some v := by
  simp [lookupS, setS, List.find?]

theorem mem_filter_ne (l : List Nat) (b x : Nat) :
    x ∈ l.filter (fun y => y != b) ↔ x ∈ l ∧ x ≠ b := by
  simp [List.mem_filter]

theorem not_mem_closeBrowser (w : World) (b : Nat) :
    b ∉ (closeBrowser w b).openBrowsers := by
  simp [closeBrowser, List.mem_filter]

theorem not_mem_closeBrowser_of_not_mem (w : World) (b x : Nat) (h : x ∉ w.openBrowsers) :
    x ∉ (closeBrowser w b).openBrowsers := by
  simp only [closeBrowser, List.mem_filter]
  intro hc
  exact h hc.1

theorem V2.updateStatus_openBrowsers (jobId : String) (st : Option St) (msg : String)
    (w : World) (tr : Trace) :
    (V2.updateStatus jobId st msg w tr).1.openBrowsers = w.openBrowsers := by
  unfold V2.updateStatus
  cases lookupS w.sessions jobId <;> rfl

theorem V2.updateStatus_nextBrowserId (jobId : String) (st : Option St) (msg : String)
    (w : World) (tr : Trace) :
    (V2.updateStatus jobId st msg w tr).1.nextBrowserId = w.nextBrowserId := by
  unfold V2.updateStatus
  cases lookupS w.sessions jobId <;> rfl

set_option maxHeartbeats 1600000 in
/-- Characterisation of every module 1 `startJobPosting` run: the promise
always resolves, the delivered statuses are stage-monotone, and depending on
whether the straight-line body ran into an error, either exactly one final
`failed` update is delivered with the session removed and the browser closed,
or the session is left registered with cached status awaiting_otp and no
`failed` update was delivered. -/
theorem V1.run_spec_v1 (env : StartEnv) (jobId : String) (jobData : HiPagesJobRequest) (w : World) :
    (V1.startJobPosting env jobId jobData w).promise = Except.ok () ∧
    traceMonotone (emittedStatuses (V1.startJobPosting env jobId jobData w).trace) = true ∧
    (match V1.firstError env jobData with
     | some e =>
        lookupS (V1.startJobPosting env jobId jobData w).world.sessions jobId = none ∧
        failedCount (V1.startJobPosting env jobId jobData w).trace = 1 ∧
        (emittedRecords (V1.startJobPosting env jobId jobData w).trace).getLast? =
          some (V1.failRecord jobId e) ∧
        (w.nextBrowserId ∉ w.openBrowsers →
          w.nextBrowserId ∉ (V1.startJobPosting env jobId jobData w).world.openBrowsers)
     | none =>
        lookupS (V1.startJobPosting env jobId jobData w).world.sessions jobId =
          some ⟨w.nextBrowserId, mkStatus jobId St.awaiting_otp "Waiting for OTP verification"⟩ ∧
        failedCount (V1.startJobPosting env jobId jobData w).trace = 0 ∧
        (emittedStatuses (V1.startJobPosting env jobId jobData w).trace).getLast? =
          some St.awaiting_otp) := by
  obtain ⟨el, en, ev, eu, eg, ew, ec, elo, ecq, ea, ed, eup, ecd, eci⟩ := env
  cases el with
  | error e => exact ⟨rfl, rfl, lookupS_deleteS _ _, rfl, rfl, fun h => h⟩
  | ok _ =>
  cases en with
  | error e => exact ⟨rfl, rfl, lookupS_deleteS _ _, rfl, rfl, fun _ => not_mem_closeBrowser _ _⟩
  | ok _ =>
  cases ev with
  | error e => exact ⟨rfl, rfl, lookupS_deleteS _ _, rfl, rfl, fun _ => not_mem_closeBrowser _ _⟩
  | ok _ =>
  cases eg with
  | error e => exact ⟨rfl, rfl, lookupS_deleteS _ _, rfl, rfl, fun _ => not_mem_closeBrowser _ _⟩
  | ok _ =>
  cases ec with
  | error e => exact ⟨rfl, rfl, lookupS_deleteS _ _, rfl, rfl, fun _ => not_mem_closeBrowser _ _⟩
  | ok _ =>
  cases elo with
  | error e => exact ⟨rfl, rfl, lookupS_deleteS _ _, rfl, rfl, fun _ => not_mem_closeBrowser _ _⟩
  | ok _ =>
  cases ecq with
  | error e => exact ⟨rfl, rfl, lookupS_deleteS _ _, rfl, rfl, fun _ => not_mem_closeBrowser _ _⟩
  | ok _ =>
  cases ea with
  | error e => exact ⟨rfl, rfl, lookupS_deleteS _ _, rfl, rfl, fun _ => not_mem_closeBrowser _ _⟩
  | ok _ =>
  cases ed with
  | error e => exact ⟨rfl, rfl, lookupS_deleteS _ _, rfl, rfl, fun _ => not_mem_closeBrowser _ _⟩
  | ok _ =>
  simp only [V1.startJobPosting, V1.firstError]
  cases hp : photosPresent jobData with
  | true =>
    cases eup with
    | error e => exact ⟨rfl, rfl, lookupS_deleteS _ _, rfl, rfl, fun _ => not_mem_closeBrowser _ _⟩
    | ok _ =>
    cases ecd with
    | error e => exact ⟨rfl, rfl, lookupS_deleteS _ _, rfl, rfl, fun _ => not_mem_closeBrowser _ _⟩
    | ok _ =>
      refine ⟨rfl, rfl, ?_, rfl, rfl⟩
      simp [V1.startJobPosting, V1.finishStages, lookupS_setS_self]
  | false =>
    cases ecd with
    | error e => exact ⟨rfl, rfl, lookupS_deleteS _ _, rfl, rfl, fun _ => not_mem_closeBrowser _ _⟩
    | ok _ =>
      refine ⟨rfl, rfl, ?_, rfl, rfl⟩
      simp [V1.startJobPosting, V1.finishStages, lookupS_setS_self]

/-- Rewrite of module 2 `updateStatus` when a session exists. -/
theorem V2.updateStatus_known (jobId : String) (st : Option St) (msg : String) (w : World)
    (tr : Trace) (sd : SessionData) (h : lookupS w.sessions jobId = some sd) :
    V2.updateStatus jobId st msg w tr =
      ({ w with sessions := setS w.sessions jobId ({ sd with status := V2.mergedStatus sd st msg }) },
       tr ++ [(V2.mergedStatus sd st msg, some (V2.mergedStatus sd st msg))]) := by
  simp [V2.updateStatus, V2.mergedStatus, getJobStatus, h, emitTo, lookupS_setS_self]

/-- Rewrite of module 2 `updateStatus` when no session exists. -/
theorem V2.updateStatus_unknown (jobId : String) (st : Option St) (msg : String) (w : World)
    (tr : Trace) (h : lookupS w.sessions jobId = none) :
    V2.updateStatus jobId st msg w tr =
      (w, tr ++ [({ mkStatus jobId St.pending "Starting..." with
                    status := st.getD St.pending, message := msg }, none)]) := by
  simp [V2.updateStatus, getJobStatus, h, emitTo, mkStatus]


/-- Rewrite of module 2 `updateStatus` at a world whose session map is in
explicit `setS` form (the shape produced by registration and by previous
updates). -/
theorem V2.updateStatus_at_setS (jobId : String) (st : Option St) (msg : String)
    (X : List (String × SessionData)) (ob : List Nat) (ni : Nat) (v : SessionData) (tr : Trace) :
    V2.updateStatus jobId st msg ⟨setS X jobId v, ob, ni⟩ tr =
      (⟨setS (setS X jobId v) jobId ({ v with status := V2.mergedStatus v st msg }), ob, ni⟩,
       tr ++ [(V2.mergedStatus v st msg, some (V2.mergedStatus v st msg))]) := by
  simp [V2.updateStatus, getJobStatus, lookupS_setS_self, emitTo, V2.mergedStatus]

set_option maxHeartbeats 1600000 in
/-- Characterisation of every module 2 `startJobPosting` run: the delivered
statuses are stage-monotone, and depending on whether the straight-line body
ran into an error, either (provided the catch block's `browser.close()`
resolves) exactly one final `failed` update is delivered with the session
removed and the browser closed, or the session is left registered with cached
status awaiting_otp and no `failed` update was delivered. -/
theorem V2.run_spec_v2 (env : StartEnv) (jobId : String) (jobData : HiPagesJobRequest) (w0 : World) :
    traceMonotone (emittedStatuses (V2.startJobPosting env jobId jobData w0).trace) = true ∧
    (match V2.firstError env jobData with
     | some e =>
        env.closeInCatch = Except.ok () →
        ((V2.startJobPosting env jobId jobData w0).promise = Except.ok () ∧
         lookupS (V2.startJobPosting env jobId jobData w0).world.sessions jobId = none ∧
         failedCount (V2.startJobPosting env jobId jobData w0).trace = 1 ∧
         (emittedRecords (V2.startJobPosting env jobId jobData w0).trace).getLast? =
           some (V2.failRecord jobId e) ∧
         (w0.nextBrowserId ∉ w0.openBrowsers →
           w0.nextBrowserId ∉ (V2.startJobPosting env jobId jobData w0).world.openBrowsers))
     | none =>
        (V2.startJobPosting env jobId jobData w0).promise = Except.ok () ∧
        lookupS (V2.startJobPosting env jobId jobData w0).world.sessions jobId =
          some ⟨w0.nextBrowserId,
            mkStatus jobId St.awaiting_otp ("Enter the code sent to " ++ jobData.contact.phone)⟩ ∧
        failedCount (V2.startJobPosting env jobId jobData w0).trace = 0 ∧
        (emittedStatuses (V2.startJobPosting env jobId jobData w0).trace).getLast? =
          some St.awaiting_otp) := by
  obtain ⟨el, en, ev, eu, eg, ew, ec, elo, ecq, ea, ed, eup, ecd, eci⟩ := env
  rcases hl : lookupS w0.sessions jobId with _ | sd
  case none =>
    simp only [V2.startJobPosting, V2.finishStages, V2.firstError, V2.updateStatus_unknown,
      V2.updateStatus_at_setS, hl]
    cases el with
    | error e => exact ⟨rfl, fun _ => ⟨rfl, lookupS_deleteS _ _, rfl, rfl, fun h => h⟩⟩
    | ok _ =>
    cases en with
    | error e =>
      cases eci with
      | ok _ =>
        exact ⟨rfl, fun _ => ⟨rfl, lookupS_deleteS _ _, rfl, rfl, fun _ => not_mem_closeBrowser _ _⟩⟩
      | error c => exact ⟨rfl, fun h => nomatch h⟩
    | ok _ =>
    cases ev with
    | error e =>
      cases eci with
      | ok _ =>
        exact ⟨rfl, fun _ => ⟨rfl, lookupS_deleteS _ _, rfl, rfl, fun _ => not_mem_closeBrowser _ _⟩⟩
      | error c => exact ⟨rfl, fun h => nomatch h⟩
    | ok _ =>
    cases eu with
    | error e =>
      cases eci with
      | ok _ =>
        exact ⟨rfl, fun _ => ⟨rfl, lookupS_deleteS _ _, rfl, rfl, fun _ => not_mem_closeBrowser _ _⟩⟩
      | error c => exact ⟨rfl, fun h => nomatch h⟩
    | ok _ =>
    cases eg with
    | error e =>
      cases eci with
      | ok _ =>
        exact ⟨rfl, fun _ => ⟨rfl, lookupS_deleteS _ _, rfl, rfl, fun _ => not_mem_closeBrowser _ _⟩⟩
      | error c => exact ⟨rfl, fun h => nomatch h⟩
    | ok _ =>
    cases ew with
    | error e =>
      cases eci with
      | ok _ =>
        exact ⟨rfl, fun _ => ⟨rfl, lookupS_deleteS _ _, rfl, rfl, fun _ => not_mem_closeBrowser _ _⟩⟩
      | error c => exact ⟨rfl, fun h => nomatch h⟩
    | ok _ =>
    cases ec with
    | error e =>
      cases eci with
      | ok _ =>
        exact ⟨rfl, fun _ => ⟨rfl, lookupS_deleteS _ _, rfl, rfl, fun _ => not_mem_closeBrowser _ _⟩⟩
      | error c => exact ⟨rfl, fun h => nomatch h⟩
    | ok _ =>
    cases elo with
    | error e =>
      cases eci with
      | ok _ =>
        exact ⟨rfl, fun _ => ⟨rfl, lookupS_deleteS _ _, rfl, rfl, fun _ => not_mem_closeBrowser _ _⟩⟩
      | error c => exact ⟨rfl, fun h => nomatch h⟩
    | ok _ =>
    cases ecq with
    | error e =>
      cases eci with
      | ok _ =>
        exact ⟨rfl, fun _ => ⟨rfl, lookupS_deleteS _ _, rfl, rfl, fun _ => not_mem_closeBrowser _ _⟩⟩
      | error c => exact ⟨rfl, fun h => nomatch h⟩
    | ok _ =>
    cases ea with
    | error e =>
      cases eci with
      | ok _ =>
        exact ⟨rfl, fun _ => ⟨rfl, lookupS_deleteS _ _, rfl, rfl, fun _ => not_mem_closeBrowser _ _⟩⟩
      | error c => exact ⟨rfl, fun h => nomatch h⟩
    | ok _ =>
    cases ed with
    | error e =>
      cases eci with
      | ok _ =>
        exact ⟨rfl, fun _ => ⟨rfl, lookupS_deleteS _ _, rfl, rfl, fun _ => not_mem_closeBrowser _ _⟩⟩
      | error c => exact ⟨rfl, fun h => nomatch h⟩
    | ok _ =>
    cases hp : photosPresent jobData with
    | true =>
      cases eup with
      | error e =>
        cases eci with
        | ok _ =>
          exact ⟨rfl, fun _ => ⟨rfl, lookupS_deleteS _ _, rfl, rfl, fun _ => not_mem_closeBrowser _ _⟩⟩
        | error c => exact ⟨rfl, fun h => nomatch h⟩
      | ok _ =>
      cases ecd with
      | error e =>
        cases eci with
        | ok _ =>
          exact ⟨rfl, fun _ => ⟨rfl, lookupS_deleteS _ _, rfl, rfl, fun _ => not_mem_closeBrowser _ _⟩⟩
        | error c => exact ⟨rfl, fun h => nomatch h⟩
      | ok _ => exact ⟨rfl, rfl, (lookupS_setS_self _ _ _).trans rfl, rfl, rfl⟩
    | false =>
      cases ecd with
      | error e =>
        cases eci with
        | ok _ =>
          exact ⟨rfl, fun _ => ⟨rfl, lookupS_deleteS _ _, rfl, rfl, fun _ => not_mem_closeBrowser _ _⟩⟩
        | error c => exact ⟨rfl, fun h => nomatch h⟩
      | ok _ => exact ⟨rfl, rfl, (lookupS_setS_self _ _ _).trans rfl, rfl, rfl⟩
  case some =>
    simp only [V2.startJobPosting, V2.firstError]
    rw [V2.updateStatus_known _ _ _ _ _ _ hl]
    simp only [V2.finishStages, V2.updateStatus_at_setS]
    cases el with
    | error e => exact ⟨rfl, fun _ => ⟨rfl, lookupS_deleteS _ _, rfl, rfl, fun h => h⟩⟩
    | ok _ =>
    cases en with
    | error e =>
      cases eci with
      | ok _ =>
        exact ⟨rfl, fun _ => ⟨rfl, lookupS_deleteS _ _, rfl, rfl, fun _ => not_mem_closeBrowser _ _⟩⟩
      | error c => exact ⟨rfl, fun h => nomatch h⟩
    | ok _ =>
    cases ev with
    | error e =>
      cases eci with
      | ok _ =>
        exact ⟨rfl, fun _ => ⟨rfl, lookupS_deleteS _ _, rfl, rfl, fun _ => not_mem_closeBrowser _ _⟩⟩
      | error c => exact ⟨rfl, fun h => nomatch h⟩
    | ok _ =>
    cases eu with
    | error e =>
      cases eci with
      | ok _ =>
        exact ⟨rfl, fun _ => ⟨rfl, lookupS_deleteS _ _, rfl, rfl, fun _ => not_mem_closeBrowser _ _⟩⟩
      | error c => exact ⟨rfl, fun h => nomatch h⟩
    | ok _ =>
    cases eg with
    | error e =>
      cases eci with
      | ok _ =>
        exact ⟨rfl, fun _ => ⟨rfl, lookupS_deleteS _ _, rfl, rfl, fun _ => not_mem_closeBrowser _ _⟩⟩
      | error c => exact ⟨rfl, fun h => nomatch h⟩
    | ok _ =>
    cases ew with
    | error e =>
      cases eci with
      | ok _ =>
        exact ⟨rfl, fun _ => ⟨rfl, lookupS_deleteS _ _, rfl, rfl, fun _ => not_mem_closeBrowser _ _⟩⟩
      | error c => exact ⟨rfl, fun h => nomatch h⟩
    | ok _ =>
    cases ec with
    | error e =>
      cases eci with
      | ok _ =>
        exact ⟨rfl, fun _ => ⟨rfl, lookupS_deleteS _ _, rfl, rfl, fun _ => not_mem_closeBrowser _ _⟩⟩
      | error c => exact ⟨rfl, fun h => nomatch h⟩
    | ok _ =>
    cases elo with
    | error e =>
      cases eci with
      | ok _ =>
        exact ⟨rfl, fun _ => ⟨rfl, lookupS_deleteS _ _, rfl, rfl, fun _ => not_mem_closeBrowser _ _⟩⟩
      | error c => exact ⟨rfl, fun h => nomatch h⟩
    | ok _ =>
    cases ecq with
    | error e =>
      cases eci with
      | ok _ =>
        exact ⟨rfl, fun _ => ⟨rfl, lookupS_deleteS _ _, rfl, rfl, fun _ => not_mem_closeBrowser _ _⟩⟩
      | error c => exact ⟨rfl, fun h => nomatch h⟩
    | ok _ =>
    cases ea with
    | error e =>
      cases eci with
      | ok _ =>
        exact ⟨rfl, fun _ => ⟨rfl, lookupS_deleteS _ _, rfl, rfl, fun _ => not_mem_closeBrowser _ _⟩⟩
      | error c => exact ⟨rfl, fun h => nomatch h⟩
    | ok _ =>
    cases ed with
    | error e =>
      cases eci with
      | ok _ =>
        exact ⟨rfl, fun _ => ⟨rfl, lookupS_deleteS _ _, rfl, rfl, fun _ => not_mem_closeBrowser _ _⟩⟩
      | error c => exact ⟨rfl, fun h => nomatch h⟩
    | ok _ =>
    cases hp : photosPresent jobData with
    | true =>
      cases eup with
      | error e =>
        cases eci with
        | ok _ =>
          exact ⟨rfl, fun _ => ⟨rfl, lookupS_deleteS _ _, rfl, rfl, fun _ => not_mem_closeBrowser _ _⟩⟩
        | error c => exact ⟨rfl, fun h => nomatch h⟩
      | ok _ =>
      cases ecd with
      | error e =>
        cases eci with
        | ok _ =>
          exact ⟨rfl, fun _ => ⟨rfl, lookupS_deleteS _ _, rfl, rfl, fun _ => not_mem_closeBrowser _ _⟩⟩
        | error c => exact ⟨rfl, fun h => nomatch h⟩
      | ok _ => exact ⟨rfl, rfl, (lookupS_setS_self _ _ _).trans rfl, rfl, rfl⟩
    | false =>
      cases ecd with
      | error e =>
        cases eci with
        | ok _ =>
          exact ⟨rfl, fun _ => ⟨rfl, lookupS_deleteS _ _, rfl, rfl, fun _ => not_mem_closeBrowser _ _⟩⟩
        | error c => exact ⟨rfl, fun h => nomatch h⟩
      | ok _ => exact ⟨rfl, rfl, (lookupS_setS_self _ _ _).trans rfl, rfl, rfl⟩

/-- Membership after one best-effort unlink. -/
theorem mem_files_unlinkFile (fs : FileSys) (p q : String) :
    q ∈ (unlinkFile fs p).files ↔ q ∈ fs.files ∧ q ≠ p := by
  simp [unlinkFile, List.mem_filter]

/-- The finally block never creates files. -/
theorem not_mem_finallyClean_of_not_mem (temps : List String) :
    ∀ (fs : FileSys) (q : String), q ∉ fs.files → q ∉ (finallyClean fs temps).files := by
  induction temps with
  | nil => intro fs q h; exact h
  | cons p rest ih =>
    intro fs q h
    have h2 : q ∉ (unlinkFile fs p).files := by
      rw [mem_files_unlinkFile]
      exact fun hc => h hc.1
    exact ih (unlinkFile fs p) q h2

/-- The finally block removes every recorded temp file. -/
theorem finallyClean_removes (temps : List String) :
    ∀ (fs : FileSys) (q : String), q ∈ temps → q ∉ (finallyClean fs temps).files := by
  induction temps with
  | nil => intro fs q h; exact absurd h (List.not_mem_nil q)
  | cons p rest ih =>
    intro fs q h
    show q ∉ (finallyClean (unlinkFile fs p) rest).files
    rcases List.mem_cons.mp h with h1 | h2
    · by_cases hr : q ∈ rest
      · exact ih (unlinkFile fs p) q hr
      · subst h1
        apply not_mem_finallyClean_of_not_mem
        rw [mem_files_unlinkFile]
        exact fun hc => hc.2 rfl
    · exact ih (unlinkFile fs p) q h2

/-- Module 2's question loop runs at most `fuel` iterations. -/
theorem V2.answerLoop_iterations_le (screens : Nat → Screen) :
    ∀ (fuel k : Nat), (V2.answerLoop screens fuel k).iterations ≤ fuel := by
  intro fuel
  induction fuel with
  | zero => intro k; exact Nat.le_refl 0
  | succ n ih =>
    intro k
    simp only [V2.answerLoop]
    split
    · exact Nat.zero_le _
    · split
      · show 1 + (V2.answerLoop screens n (k + 1)).iterations ≤ n + 1
        have h := ih (k + 1)
        omega
      · show 1 ≤ n + 1
        omega

/-- `getJobStatus` is a miss exactly when the store lookup is. -/
theorem getJobStatus_of_lookup_none (w : World) (jobId : String)
    (h : lookupS w.sessions jobId = none) : getJobStatus w jobId = none := by
  simp [getJobStatus, h]

/-- C3: for every job identifier with no existing Session, `submitOtp` (in
both modules) returns — does not throw — a `failed`-shaped status whose
message is "Session not found", and leaves the world (session store, open
browsers) entirely unchanged. -/
theorem C3_submitOtp_unknown_session (env : SubmitEnv) (jobId : String) (w : World)
    (h : lookupS w.sessions jobId = none) :
    V1.submitOtp env jobId w = (w, Except.ok (V1.noSessionStatus jobId)) ∧
    V2.submitOtp env jobId w = (w, Except.ok (V2.noSessionStatus jobId)) ∧
    (V1.noSessionStatus jobId).status = St.failed ∧
    (V1.noSessionStatus jobId).message = "Session not found" ∧
    (V2.noSessionStatus jobId).status = St.failed ∧
    (V2.noSessionStatus jobId).message = "Session not found" := by
  refine ⟨?_, ?_, rfl, rfl, rfl, rfl⟩ <;> simp only [V1.submitOtp, V2.submitOtp, h]

/-- Witness for C3 at a concrete unknown job identifier. -/
theorem C3_witness :
    V1.submitOtp submitAllOk "missing" emptyWorld =
      (emptyWorld, Except.ok (V1.noSessionStatus "missing")) ∧
    (V1.noSessionStatus "missing").message = "Session not found" := by
  have h := C3_submitOtp_unknown_session submitAllOk "missing" emptyWorld rfl
  exact ⟨h.1, h.2.2.2.1⟩

/-- C4: when `submitOtp` proceeds without a thrown error, it returns status
`completed` whose result fields are exactly the outcome of the pattern-match
extraction (module 1 against URL then page content, module 2 against the
URL), with the external URL present precisely when the external identifier
is; extraction failure still yields `completed`. -/
theorem C4_completed_with_extraction (env : SubmitEnv) (jobId : String) (w : World)
    (sd : SessionData) (pc : String)
    (h : lookupS w.sessions jobId = some sd)
    (hf : env.findOtpInput = Except.ok true) (hc : env.clickOtpInput = Except.ok ())
    (ht : env.typeOtp = Except.ok ()) (hv : env.findVerifyButton = Except.ok true)
    (hcv : env.clickVerify = Except.ok ()) (hfc : env.findAndClick = Except.ok true)
    (hpc : env.content = Except.ok pc) (hcm : env.closeMain = Except.ok ()) :
    (V1.submitOtp env jobId w).2 = Except.ok
      { jobId := jobId, status := St.completed, message := "Job posted successfully!",
        hipagesJobId := V1.extractJobId env.url pc,
        hipagesJobUrl := (V1.extractJobId env.url pc).map
          (fun i => "https://hipages.com.au/jobs/" ++ i) } ∧
    (V2.submitOtp env jobId w).2 = Except.ok
      { jobId := jobId, status := St.completed, message := "Job posted successfully!",
        hipagesJobId := V2.extractJobId env.url,
        hipagesJobUrl := (V2.extractJobId env.url).map
          (fun i => "https://www.hipages.com.au/account/job/" ++ i ++ "/interested-businesses") } ∧
    ((V1.extractJobId env.url pc).map
        (fun i => "https://hipages.com.au/jobs/" ++ i)).isSome =
      (V1.extractJobId env.url pc).isSome ∧
    ((V2.extractJobId env.url).map
        (fun i => "https://www.hipages.com.au/account/job/" ++ i ++ "/interested-businesses")).isSome =
      (V2.extractJobId env.url).isSome := by
  refine ⟨?_, ?_, ?_, ?_⟩
  · simp [V1.submitOtp, h, hf, ht, hv, hcv, hpc, hcm]
  · simp [V2.submitOtp, h, hf, hc, ht, hfc, hcm]
  · cases V1.extractJobId env.url pc <;> rfl
  · cases V2.extractJobId env.url <;> rfl

/-- Witness for C4: a URL carrying job_id=12345 yields `completed` with both
result fields populated. -/
theorem C4_witness :
    (V1.submitOtp submitAllOk "job-1" oneSessionWorld).2 = Except.ok
      { jobId := "job-1", status := St.completed, message := "Job posted successfully!",
        hipagesJobId := V1.extractJobId submitAllOk.url "",
        hipagesJobUrl := (V1.extractJobId submitAllOk.url "").map
          (fun i => "https://hipages.com.au/jobs/" ++ i) } ∧
    V1.extractJobId submitAllOk.url "" = some "12345" := by
  have h := C4_completed_with_extraction submitAllOk "job-1" oneSessionWorld
    ⟨0, mkStatus "job-1" St.awaiting_otp "Waiting for OTP verification"⟩ ""
    rfl rfl rfl rfl rfl rfl rfl rfl rfl
  exact ⟨h.1, by decide⟩

/-- C5 (amended): module 1 `cancelSession` is idempotent and never throws —
the session is absent afterwards, a second call is a no-op, and close errors
are swallowed; module 2 behaves that way provided `browser.close()` resolves,
while a close rejection propagates and leaves the entry in place (see the
counterexample). -/
theorem C5_cancelSession_idempotent :
    (∀ (jobId : String) (w : World),
      (V1.cancelSession jobId w).2 = Except.ok () ∧
      lookupS (V1.cancelSession jobId w).1.sessions jobId = none ∧
      V1.cancelSession jobId (V1.cancelSession jobId w).1 =
        ((V1.cancelSession jobId w).1, Except.ok ()) ∧
      (∀ sd, lookupS w.sessions jobId = some sd →
        sd.browserId ∉ (V1.cancelSession jobId w).1.openBrowsers)) ∧
    (∀ (env : CancelEnv) (jobId : String) (w : World), env.closeOutcome = Except.ok () →
      (V2.cancelSession env jobId w).2 = Except.ok () ∧
      lookupS (V2.cancelSession env jobId w).1.sessions jobId = none ∧
      V2.cancelSession env jobId (V2.cancelSession env jobId w).1 =
        ((V2.cancelSession env jobId w).1, Except.ok ())) := by
  constructor
  · intro jobId w
    rcases hl : lookupS w.sessions jobId with _ | sd
    · refine ⟨?_, ?_, ?_, ?_⟩
      · simp [V1.cancelSession, hl]
      · simp [V1.cancelSession, hl]
      · simp [V1.cancelSession, hl]
      · exact fun sd hsd => nomatch hsd
    · refine ⟨?_, ?_, ?_, ?_⟩
      · simp [V1.cancelSession, hl]
      · simp [V1.cancelSession, hl, lookupS_deleteS]
      · simp [V1.cancelSession, hl, lookupS_deleteS]
      · intro sd2 hsd
        cases hsd
        simp only [V1.cancelSession, hl]
        exact not_mem_closeBrowser _ _
  · intro env jobId w hok
    rcases hl : lookupS w.sessions jobId with _ | sd
    · refine ⟨?_, ?_, ?_⟩
      · simp [V2.cancelSession, hl]
      · simp [V2.cancelSession, hl]
      · simp [V2.cancelSession, hl]
    · refine ⟨?_, ?_, ?_⟩
      · simp [V2.cancelSession, hl, hok]
      · simp [V2.cancelSession, hl, hok, lookupS_deleteS]
      · simp [V2.cancelSession, hl, hok, lookupS_deleteS]

/-- Witness for C5 at a concrete live session. -/
theorem C5_witness :
    lookupS (V1.cancelSession "job-1" oneSessionWorld).1.sessions "job-1" = none ∧
    (V2.cancelSession ⟨okU⟩ "job-1" oneSessionWorld).2 = Except.ok () := by
  exact ⟨(C5_cancelSession_idempotent.1 "job-1" oneSessionWorld).2.1,
         (C5_cancelSession_idempotent.2 ⟨okU⟩ "job-1" oneSessionWorld rfl).1⟩

/-- Counterexample for C5: in module 2, a rejecting `browser.close()`
propagates out of `cancelSession` and the session entry survives the call. -/
theorem C5_cx :
    (V2.cancelSession ⟨Except.error "close failed"⟩ "job-1" oneSessionWorld).2 =
      Except.error "close failed" ∧
    lookupS (V2.cancelSession ⟨Except.error "close failed"⟩ "job-1" oneSessionWorld).1.sessions
      "job-1" = some ⟨0, mkStatus "job-1" St.awaiting_otp "Waiting for OTP verification"⟩ := by
  constructor <;> rfl

/-- C6: every temporary file recorded by the photo-upload stage (in either
module) is absent from the filesystem when the stage returns or throws. -/
theorem C6_upload_temp_cleanup (env : UploadEnv) (photos : Photos) (fs0 : FileSys)
    (f : String) :
    (f ∈ (V1.uploadPhotos env photos fs0).tempFiles →
      f ∉ (V1.uploadPhotos env photos fs0).fs.files) ∧
    (f ∈ (V2.uploadPhotos env photos fs0).tempFiles →
      f ∉ (V2.uploadPhotos env photos fs0).fs.files) := by
  obtain ⟨ff, wo, wv, up, onm, vnm⟩ := env
  constructor
  · cases ff with
    | error e => exact fun hf => nomatch hf
    | ok found =>
      cases found
      · exact fun hf => nomatch hf
      · simp only [V1.uploadPhotos]
        repeat' split
        all_goals intro hf
        all_goals
          first
          | exact absurd hf (List.not_mem_nil f)
          | exact finallyClean_removes _ _ _ hf
  · cases ff with
    | error e => exact fun hf => nomatch hf
    | ok found =>
      cases found
      · exact fun hf => nomatch hf
      · simp only [V2.uploadPhotos]
        repeat' split
        all_goals intro hf
        all_goals
          first
          | exact absurd hf (List.not_mem_nil f)
          | exact finallyClean_removes _ _ _ hf

/-- Witness for C6: with both payloads decoded and the upload step throwing,
the recorded original temp file is gone afterwards. -/
theorem C6_witness :
    "/tmp/hipages_original_1.jpg" ∈ (V1.uploadPhotos uploadFailEnv photosBoth fsPre).tempFiles ∧
    "/tmp/hipages_original_1.jpg" ∉ (V1.uploadPhotos uploadFailEnv photosBoth fsPre).fs.files := by
  refine ⟨by decide, ?_⟩
  exact (C6_upload_temp_cleanup uploadFailEnv photosBoth fsPre "/tmp/hipages_original_1.jpg").1
    (by decide)

/-- C9 (amended): module 2's question loop is bounded by ten iterations,
stops immediately (clicking nothing) as soon as the page shows a free-text
area, stops after the current iteration when no next control is found, and in
each iteration clicks one choice-control exactly when an unselected one is
present; module 1's variant instead clicks the first five radio controls and
every advance control without consulting the free-text area (see the
counterexample). -/
theorem C9_question_loop (screens : Nat → Screen) :
    (V2.answerFormQuestions screens).iterations ≤ 10 ∧
    (∀ (fuel k : Nat), (screens k).hasTextarea = true →
      V2.answerLoop screens (fuel + 1) k = ⟨0, 0, true, false⟩) ∧
    (∀ (fuel k : Nat), (screens k).hasTextarea = false → (screens k).hasNext = false →
      V2.answerLoop screens (fuel + 1) k =
        ⟨if 0 < (screens k).unselected then 1 else 0, 1, false, true⟩) ∧
    (∀ (fuel k : Nat), (screens k).hasTextarea = false → (screens k).hasNext = true →
      V2.answerLoop screens (fuel + 1) k =
        ⟨(if 0 < (screens k).unselected then 1 else 0) +
            (V2.answerLoop screens fuel (k + 1)).radioClicks,
          1 + (V2.answerLoop screens fuel (k + 1)).iterations,
          (V2.answerLoop screens fuel (k + 1)).stoppedOnTextarea,
          (V2.answerLoop screens fuel (k + 1)).stoppedOnNoNext⟩) := by
  refine ⟨V2.answerLoop_iterations_le screens 10 0, ?_, ?_, ?_⟩
  · intro fuel k h
    simp [V2.answerLoop, h]
  · intro fuel k h1 h2
    simp [V2.answerLoop, h1, h2]
  · intro fuel k h1 h2
    simp [V2.answerLoop, h1, h2]

/-- Witness for C9: on a page whose first screen already shows a textarea the
loop ends with no clicks; on a three-screen script it uses three iterations. -/
theorem C9_witness :
    V2.answerLoop screensTextarea 10 0 = ⟨0, 0, true, false⟩ ∧
    V2.answerFormQuestions screensThree = ⟨3, 3, true, false⟩ := by
  refine ⟨(C9_question_loop screensTextarea).2.1 9 0 rfl, by decide⟩

/-- Counterexample for C9: module 1's question stage clicks three
choice-controls on a page that already shows a free-text area (the claimed
loop would stop before clicking anything), so the claimed stop condition does
not hold of the first module. -/
theorem C9_cx :
    (V1.answerFormQuestions ⟨3, 1, true⟩).1 = 3 ∧
    (QPage.mk 3 1 true).hasTextarea = true ∧ (3 : Nat) ≠ 0 := by
  exact ⟨rfl, rfl, by decide⟩

/-- A monotone delivered sequence that contains `failed` has it as its last
element (otherwise `failed` would sit inside the main part, which the
monotonicity check forbids). -/
theorem failedLast_of_traceMonotone (t : List St) (h : traceMonotone t = true)
    (hf : St.failed ∈ t) : t.getLast? = some St.failed := by
  by_cases hl : t.getLast? = some St.failed
  · exact hl
  · exfalso
    have hm : mainPart t = t := by simp [mainPart, hl]
    rw [traceMonotone, hm] at h
    simp only [Bool.and_eq_true] at h
    exact absurd hf (by simpa using h.1)

/-- C1 (amended): on a known job identifier, module 1 `submitOtp` always
returns (never rejects) exactly a `completed` or `failed` status with the
session removed, a subsequent `getStatus` missing, and the browser closed;
module 2 does the same provided neither `browser.close()` call site rejects
(when the close inside the catch block rejects, the error propagates and the
session entry survives — see the counterexample). -/
theorem C1_submitOtp_teardown :
    (∀ (env : SubmitEnv) (jobId : String) (w : World) (sd : SessionData),
      lookupS w.sessions jobId = some sd →
      ∃ js, (V1.submitOtp env jobId w).2 = Except.ok js ∧
        (js.status = St.completed ∨ js.status = St.failed) ∧
        lookupS (V1.submitOtp env jobId w).1.sessions jobId = none ∧
        getJobStatus (V1.submitOtp env jobId w).1 jobId = none ∧
        sd.browserId ∉ (V1.submitOtp env jobId w).1.openBrowsers) ∧
    (∀ (env : SubmitEnv) (jobId : String) (w : World) (sd : SessionData),
      lookupS w.sessions jobId = some sd →
      env.closeMain = Except.ok () → env.closeInCatch = Except.ok () →
      ∃ js, (V2.submitOtp env jobId w).2 = Except.ok js ∧
        (js.status = St.completed ∨ js.status = St.failed) ∧
        lookupS (V2.submitOtp env jobId w).1.sessions jobId = none ∧
        getJobStatus (V2.submitOtp env jobId w).1 jobId = none ∧
        sd.browserId ∉ (V2.submitOtp env jobId w).1.openBrowsers) := by
  constructor
  · intro env jobId w sd h
    simp only [V1.submitOtp, h]
    repeat' split
    all_goals
      first
      | exact ⟨_, rfl, Or.inl rfl, lookupS_deleteS _ _,
          getJobStatus_of_lookup_none _ _ (lookupS_deleteS _ _), not_mem_closeBrowser _ _⟩
      | exact ⟨_, rfl, Or.inr rfl, lookupS_deleteS _ _,
          getJobStatus_of_lookup_none _ _ (lookupS_deleteS _ _), not_mem_closeBrowser _ _⟩
  · intro env jobId w sd h hcm hci
    simp only [V2.submitOtp, h, hcm, hci]
    repeat' split
    all_goals
      first
      | exact ⟨_, rfl, Or.inl rfl, lookupS_deleteS _ _,
          getJobStatus_of_lookup_none _ _ (lookupS_deleteS _ _), not_mem_closeBrowser _ _⟩
      | exact ⟨_, rfl, Or.inr rfl, lookupS_deleteS _ _,
          getJobStatus_of_lookup_none _ _ (lookupS_deleteS _ _), not_mem_closeBrowser _ _⟩

/-- Witness for C1 at a concrete live session. -/
theorem C1_witness :
    lookupS (V1.submitOtp submitAllOk "job-1" oneSessionWorld).1.sessions "job-1" = none ∧
    getJobStatus (V1.submitOtp submitAllOk "job-1" oneSessionWorld).1 "job-1" = none := by
  have h := C1_submitOtp_teardown.1 submitAllOk "job-1" oneSessionWorld
    ⟨0, mkStatus "job-1" St.awaiting_otp "Waiting for OTP verification"⟩ rfl
  obtain ⟨js, _, _, h3, h4, _⟩ := h
  exact ⟨h3, h4⟩

/-- Counterexample for C1: in module 2, when the OTP-input query throws and
the catch block's `browser.close()` rejects, `submitOtp` rejects and the
session entry (cached status `submitting`) is left dangling. -/
theorem C1_cx :
    (V2.submitOtp submitCloseFails "job-1" oneSessionWorld).2 =
      Except.error "close failed" ∧
    lookupS (V2.submitOtp submitCloseFails "job-1" oneSessionWorld).1.sessions "job-1" =
      some ⟨0, { jobId := "job-1", status := St.submitting, message := "Verifying code..." }⟩ := by
  exact ⟨rfl, rfl⟩

/-- C2 (amended): when any stage of module 1 `startJobPosting` fails, the
browser is closed, the session removed, and exactly one `failed` update
carrying the failure's message is delivered last; module 2 behaves the same
provided the recovery `browser.close()` resolves (when it rejects, no
`failed` update is delivered and the session dangles — see the
counterexample). -/
theorem C2_start_failure_recovery :
    (∀ (env : StartEnv) (jobId : String) (jobData : HiPagesJobRequest) (w : World) (e : String),
      V1.firstError env jobData = some e →
      lookupS (V1.startJobPosting env jobId jobData w).world.sessions jobId = none ∧
      failedCount (V1.startJobPosting env jobId jobData w).trace = 1 ∧
      (emittedRecords (V1.startJobPosting env jobId jobData w).trace).getLast? =
        some (V1.failRecord jobId e) ∧
      (w.nextBrowserId ∉ w.openBrowsers →
        w.nextBrowserId ∉ (V1.startJobPosting env jobId jobData w).world.openBrowsers)) ∧
    (∀ (env : StartEnv) (jobId : String) (jobData : HiPagesJobRequest) (w : World) (e : String),
      V2.firstError env jobData = some e → env.closeInCatch = Except.ok () →
      lookupS (V2.startJobPosting env jobId jobData w).world.sessions jobId = none ∧
      failedCount (V2.startJobPosting env jobId jobData w).trace = 1 ∧
      (emittedRecords (V2.startJobPosting env jobId jobData w).trace).getLast? =
        some (V2.failRecord jobId e) ∧
      (w.nextBrowserId ∉ w.openBrowsers →
        w.nextBrowserId ∉ (V2.startJobPosting env jobId jobData w).world.openBrowsers)) := by
  constructor
  · intro env jobId jobData w e hfe
    have h := (V1.run_spec_v1 env jobId jobData w).2.2
    rw [hfe] at h
    exact h
  · intro env jobId jobData w e hfe hci
    have h := (V2.run_spec_v2 env jobId jobData w).2
    rw [hfe] at h
    exact (h hci).2

/-- Witness for C2: a navigation timeout in module 1 yields one final failed
update and no session. -/
theorem C2_witness :
    failedCount (V1.startJobPosting startGotoFails "job-1" reqPhotos emptyWorld).trace = 1 ∧
    lookupS (V1.startJobPosting startGotoFails "job-1" reqPhotos emptyWorld).world.sessions
      "job-1" = none := by
  have h := C2_start_failure_recovery.1 startGotoFails "job-1" reqPhotos emptyWorld
    "Navigation timeout of 30000 ms exceeded" (by decide)
  exact ⟨h.2.1, h.1⟩

/-- Counterexample for C2: in module 2, when navigation times out and the
recovery `browser.close()` rejects, no `failed` update is delivered and the
session entry survives. -/
theorem C2_cx :
    V2.firstError startGotoCloseFails reqNoPhotos =
      some "Navigation timeout of 30000 ms exceeded" ∧
    failedCount (V2.startJobPosting startGotoCloseFails "job-9" reqNoPhotos emptyWorld).trace = 0 ∧
    lookupS (V2.startJobPosting startGotoCloseFails "job-9" reqNoPhotos emptyWorld).world.sessions
      "job-9" = some ⟨0, mkStatus "job-9" St.filling_form "Navigating to HiPages..."⟩ ∧
    (V2.startJobPosting startGotoCloseFails "job-9" reqNoPhotos emptyWorld).promise =
      Except.error "close failed" := by
  exact ⟨rfl, rfl, rfl, rfl⟩

/-- C7: the statuses delivered for one job are monotone with respect to the
defined stage order in both modules, and whenever a `failed` update occurs it
is the last update delivered. -/
theorem C7_updates_monotone (env : StartEnv) (jobId : String) (jobData : HiPagesJobRequest)
    (w : World) :
    (traceMonotone (emittedStatuses (V1.startJobPosting env jobId jobData w).trace) = true ∧
     (St.failed ∈ emittedStatuses (V1.startJobPosting env jobId jobData w).trace →
      (emittedStatuses (V1.startJobPosting env jobId jobData w).trace).getLast? =
        some St.failed)) ∧
    (traceMonotone (emittedStatuses (V2.startJobPosting env jobId jobData w).trace) = true ∧
     (St.failed ∈ emittedStatuses (V2.startJobPosting env jobId jobData w).trace →
      (emittedStatuses (V2.startJobPosting env jobId jobData w).trace).getLast? =
        some St.failed)) := by
  have h1 := (V1.run_spec_v1 env jobId jobData w).2.1
  have h2 := (V2.run_spec_v2 env jobId jobData w).1
  exact ⟨⟨h1, failedLast_of_traceMonotone _ h1⟩, ⟨h2, failedLast_of_traceMonotone _ h2⟩⟩

/-- Witness for C7: on a failing run the failed update is delivered last. -/
theorem C7_witness :
    (emittedStatuses (V1.startJobPosting startGotoFails "job-1" reqNoPhotos
      emptyWorld).trace).getLast? = some St.failed := by
  exact (C7_updates_monotone startGotoFails "job-1" reqNoPhotos emptyWorld).1.2 (by decide)

/-- C8 (amended): `getStatus` returns the cached status when a session exists
and a miss (null) — without throwing — when none does; the cache is written at
registration and at the awaiting_otp transition, so after a fully successful
`startSession` it reports awaiting_otp, but (in module 1) intermediate stage
transitions do not refresh it, so it can lag the most recently emitted status
(see the counterexample). -/
theorem C8_getStatus_projection :
    (∀ (w : World) (jobId : String), lookupS w.sessions jobId = none →
      getJobStatus w jobId = none) ∧
    (∀ (w : World) (jobId : String) (sd : SessionData), lookupS w.sessions jobId = some sd →
      getJobStatus w jobId = some sd.status) ∧
    (∀ (env : StartEnv) (jobId : String) (jobData : HiPagesJobRequest) (w : World),
      V1.firstError env jobData = none →
      getJobStatus (V1.startJobPosting env jobId jobData w).world jobId =
        some (mkStatus jobId St.awaiting_otp "Waiting for OTP verification") ∧
      (emittedStatuses (V1.startJobPosting env jobId jobData w).trace).getLast? =
        some St.awaiting_otp) := by
  refine ⟨fun w jobId h => by simp [getJobStatus, h],
          fun w jobId sd h => by simp [getJobStatus, h], ?_⟩
  intro env jobId jobData w hfe
  have h := (V1.run_spec_v1 env jobId jobData w).2.2
  rw [hfe] at h
  exact ⟨by simp [getJobStatus, h.1], h.2.2⟩

/-- Witness for C8 after a fully successful run. -/
theorem C8_witness :
    getJobStatus (V1.startJobPosting startAllOk "job-1" reqNoPhotos emptyWorld).world "job-1" =
      some (mkStatus "job-1" St.awaiting_otp "Waiting for OTP verification") := by
  exact (C8_getStatus_projection.2.2 startAllOk "job-1" reqNoPhotos emptyWorld rfl).1

/-- Counterexample for C8: in module 1, at the moment the uploading_photos
update is delivered, the cached status (hence `getStatus`) still reads the
registration record with status filling_form — not the most recently emitted
status. -/
theorem C8_cx :
    (V1.startJobPosting startAllOk "job-1" reqPhotos emptyWorld).trace[7]? =
      some (mkStatus "job-1" St.uploading_photos "Uploading photos...",
            some (mkStatus "job-1" St.filling_form "Starting...")) ∧
    St.uploading_photos ≠ St.filling_form := by
  exact ⟨rfl, by decide⟩

/-- C10 (amended): the promise returned by module 1 `startJobPosting` always
resolves — every internal failure is surfaced only as a `failed` status
through the callback; module 2's promise resolves provided the recovery
`browser.close()` does not reject (when it does, the promise rejects — see
the counterexample). -/
theorem C10_promise_resolves :
    (∀ (env : StartEnv) (jobId : String) (jobData : HiPagesJobRequest) (w : World),
      (V1.startJobPosting env jobId jobData w).promise = Except.ok ()) ∧
    (∀ (env : StartEnv) (jobId : String) (jobData : HiPagesJobRequest) (w : World),
      env.closeInCatch = Except.ok () →
      (V2.startJobPosting env jobId jobData w).promise = Except.ok ()) := by
  constructor
  · intro env jobId jobData w
    exact (V1.run_spec_v1 env jobId jobData w).1
  · intro env jobId jobData w hci
    have h := (V2.run_spec_v2 env jobId jobData w).2
    rcases hfe : V2.firstError env jobData with _ | e
    · rw [hfe] at h
      exact h.1
    · rw [hfe] at h
      exact (h hci).1

/-- Witness for C10: module 2's promise resolves on a navigation timeout when
the recovery close succeeds. -/
theorem C10_witness :
    (V2.startJobPosting startGotoFails "job-3" reqNoPhotos emptyWorld).promise =
      Except.ok () :=
  C10_promise_resolves.2 startGotoFails "job-3" reqNoPhotos emptyWorld rfl

/-- Counterexample for C10: module 2's promise rejects when a stage fails and
the recovery `browser.close()` also rejects. -/
theorem C10_cx :
    (V2.startJobPosting startGotoCloseFails "job-3" reqNoPhotos emptyWorld).promise =
      Except.error "close failed" := rfl

end HiPages
